import Mathlib

/-!
Verification of `pyms/flask/services/metrics.py`.

The module wires three metric instruments (a request-latency value recorder,
a request counter and a log-message counter) into Flask's request lifecycle
hooks, a Prometheus scrape endpoint, and a logging handler.  We embed the
module shallowly: the registry is explicit state threaded through each
operation, a raised Python exception is `Except.error`, and wall-clock times
are rationals.
-/

namespace Pyms

/-- Label set of the `logger_messages_total` counter: keys `service`, `level`. -/
structure LogLabels where
  service : String
  level : String
deriving DecidableEq

/-- Label set of the two request instruments: keys `service`, `method`, `uri`,
`status` (module-level tuples in the source). -/
structure ReqLabels where
  service : String
  method : String
  uri : String
  status : String
deriving DecidableEq

/-- State of the three instruments created at module load.
`http_server_requests_seconds` is a `ValueRecorder`; we keep the list of
recorded observations, most recent first.  The two counters
(`http_server_requests_count`, `logger_messages_total`) map a label set to its
current count. -/
structure Registry where
  request_latency : List (ℚ × ReqLabels)
  request_count : ReqLabels → Nat
  logger_messages : LogLabels → Nat

/-- The in-flight Flask request object, restricted to the fields the module
reads.  `url_rule` is `some` pattern when Flask resolved a route (a resolved
`Rule` object always has a `.rule` attribute, so `hasattr(request.url_rule,
"rule")` is true exactly then; an unresolved `request.url_rule` is `None`,
which has no `.rule`).  `start_time` models the dynamically attached
`request.start_time`: `none` when `before_request` never ran, in which case
reading the attribute raises `AttributeError`. -/
structure Request where
  url_rule : Option String
  path : String
  method : String
  start_time : Option ℚ

/-- The Flask response object as seen by `after_request`. -/
structure HttpResponse where
  status_code : Nat
  headers : List (String × String)
  body : String
deriving DecidableEq

/-- `FlaskMetricsWrapper(app_name)`. -/
structure FlaskMetricsWrapper where
  app_name : String

/-- `FlaskMetricsWrapper.before_request`: `request.start_time = time.time()`. -/
def FlaskMetricsWrapper.before_request (_w : FlaskMetricsWrapper)
    (req : Request) (now : ℚ) : Request :=
  { req with start_time := some now }

/-- The `labels` dict built in `after_request`: `path` is
`request.url_rule.rule` when the route was resolved, else `request.path`;
`method` is `str(request.method)` verbatim (no case change); `status` is
`str(response.status_code)`. -/
def FlaskMetricsWrapper.after_request_labels (w : FlaskMetricsWrapper)
    (req : Request) (response : HttpResponse) : ReqLabels :=
  { service := w.app_name
    method := req.method
    uri := match req.url_rule with
      | some rule => rule
      | none => req.path
    status := toString response.status_code }

/-- `FlaskMetricsWrapper.after_request`: computes the path, reads
`request.start_time` (raising `AttributeError` when `before_request` never set
it), builds the label dict, calls `FLASK_REQUEST_LATENCY.record(latency,
labels)` and `FLASK_REQUEST_COUNT.add(1, labels)`, and returns the response. -/
def FlaskMetricsWrapper.after_request (w : FlaskMetricsWrapper)
    (req : Request) (response : HttpResponse) (now : ℚ) (reg : Registry) :
    Except String (HttpResponse × Registry) :=
  match req.start_time with
  | none => Except.error "AttributeError: request has no attribute start_time"
  | some t0 =>
    let request_latency := now - t0
    let labels := w.after_request_labels req response
    Except.ok (response,
      { request_latency := (request_latency, labels) :: reg.request_latency
        request_count := Function.update reg.request_count labels
          (reg.request_count labels + 1)
        logger_messages := reg.logger_messages })

/-- A Flask `Response` restricted to what `serve_metrics` sets. -/
structure FlaskResponse where
  status_code : Nat
  content_type : String
  body : String
deriving DecidableEq

/-- The Flask `Response` constructor as called here: the default status is
200, and an explicitly passed `content_type` overrides the `mimetype`
argument (Flask only derives the content type from `mimetype` when no
`content_type` is given; `serve_metrics` always gives one). -/
def flaskResponseMk (body : String) (mimetype : String)
    (content_type : Option String) : FlaskResponse :=
  { status_code := 200
    content_type := content_type.getD mimetype
    body := body }

/-- The route handler `Service.serve_metrics` registers for `GET /metrics`:
`Response(generate_latest(), mimetype="text/print()lain",
content_type="text/plain; charset=utf-8")`.  `generate_latest` is the
prometheus-client renderer, an external read of current registry state,
modelled as a pure function of the registry; the handler makes no other
registry call, so the registry is returned unchanged. -/
def serve_metrics_handler (generate_latest : Registry → String)
    (reg : Registry) : FlaskResponse × Registry :=
  (flaskResponseMk (generate_latest reg) "text/print()lain"
    (some "text/plain; charset=utf-8"), reg)

/-- A logging record: the severity name the handler reads, plus content
fields (`name`, `msg`, `args`) it never reads. -/
structure LogRecord where
  levelname : String
  name : String
  msg : String
  args : List String
deriving DecidableEq

/-- `MetricsLogHandler(app_name)`: stores `str(app_name)` (identity on an
actual string). -/
structure MetricsLogHandler where
  app_name : String

/-- `MetricsLogHandler.emit`: builds `labels = {service, level:
record.levelname}` and calls `LOGGER_TOTAL_MESSAGES.add(1, labels)`.
State-passing view in which the registry add succeeds. -/
def MetricsLogHandler.emit (h : MetricsLogHandler) (record : LogRecord)
    (reg : Registry) : Registry :=
  let labels : LogLabels := { service := h.app_name, level := record.levelname }
  { reg with
      logger_messages :=
        Function.update reg.logger_messages labels
          (reg.logger_messages labels + 1) }

/-- `MetricsLogHandler.emit` with the registry `add` call abstracted as a
fallible operation, to settle whether `emit` survives a failing increment:
the body is two straight-line statements with no `try`/`except`, so `emit`
returns whatever the `add` call returns. -/
def MetricsLogHandler.emitWith (h : MetricsLogHandler)
    (add : Nat → LogLabels → Except String Unit) (record : LogRecord) :
    Except String Unit :=
  let labels : LogLabels := { service := h.app_name, level := record.levelname }
  add 1 labels

/-! Concrete fixtures used in counterexamples and witnesses. -/

/-- An empty registry: no latency observations, every counter at zero. -/
def reg0 : Registry :=
  { request_latency := []
    request_count := fun _ => 0
    logger_messages := fun _ => 0 }

/-- A request that never went through `before_request` (no start time). -/
def reqNoStart : Request :=
  { url_rule := none, path := "/late", method := "GET", start_time := none }

/-- A request to an unmatched path (no resolved route), pre-hook ran at 0. -/
def reqUnmatched : Request :=
  { url_rule := none, path := "/unknown/path", method := "GET"
    start_time := some 0 }

/-- A request whose HTTP method string is lowercase. -/
def reqLower : Request :=
  { url_rule := none, path := "/x", method := "get", start_time := some 0 }

/-- A matched request: route pattern resolved, pre-hook ran at 0. -/
def reqMatched : Request :=
  { url_rule := some "/items/<int:id>", path := "/items/42", method := "GET"
    start_time := some 0 }

/-- A plain 200 response. -/
def respOk : HttpResponse := { status_code := 200, headers := [], body := "ok" }

/-- A 404 response. -/
def resp404 : HttpResponse :=
  { status_code := 404, headers := [], body := "not found" }

/-- A WARNING-level log record for the scenario in the spec. -/
def recWarn : LogRecord :=
  { levelname := "WARNING", name := "root", msg := "disk almost full", args := [] }

/-- An INFO-level record with some content fields populated. -/
def recInfoA : LogRecord :=
  { levelname := "INFO", name := "app.db", msg := "query ran", args := ["42"] }

/-- Another INFO-level record, differing in every content field. -/
def recInfoB : LogRecord :=
  { levelname := "INFO", name := "app.http", msg := "served", args := [] }

/-! Helper lemmas. -/

/-- `Nat.toDigitsCore` never returns `[]` from a nonempty accumulator. -/
theorem toDigitsCore_cons_ne_nil (b : Nat) :
    ∀ (f n : Nat) (c : Char) (l : List Char),
      Nat.toDigitsCore b f n (c :: l) ≠ [] := by
  intro f
  induction f with
  | zero => intro n c l; simp [Nat.toDigitsCore]
  | succ f ih =>
    intro n c l
    rw [Nat.toDigitsCore]
    by_cases hq : n / b = 0
    · simp [hq]
    · simpa [hq] using ih (n / b) (Nat.digitChar (n % b)) (c :: l)

/-- The decimal representation of a natural number is a nonempty string. -/
theorem nat_toString_ne_empty (n : Nat) : toString n ≠ "" := by
  show Nat.repr n ≠ ""
  rw [Nat.repr, Nat.toDigits, Nat.toDigitsCore]
  by_cases hq : n / 10 = 0
  · simp [hq, List.asString, String.ext_iff]
  · simp only [hq, if_false]
    intro hcontra
    exact toDigitsCore_cons_ne_nil 10 n (n / 10) (Nat.digitChar (n % 10)) []
      (by simpa [List.asString, String.ext_iff] using hcontra)

/-- The one evaluation equation for a successful `after_request`: when the
request carries a start time, the handler returns the response unchanged and
a registry extended by exactly one latency observation and one count
increment, both at the label set `after_request_labels`. -/
theorem after_request_eq (w : FlaskMetricsWrapper) (req : Request)
    (response : HttpResponse) (now : ℚ) (reg : Registry) (t0 : ℚ)
    (h : req.start_time = some t0) :
    w.after_request req response now reg = Except.ok (response,
      { request_latency :=
          (now - t0, w.after_request_labels req response) :: reg.request_latency
        request_count := Function.update reg.request_count
          (w.after_request_labels req response)
          (reg.request_count (w.after_request_labels req response) + 1)
        logger_messages := reg.logger_messages }) := by
  unfold FlaskMetricsWrapper.after_request
  rw [h]

/-- Claim C1 counterexample: a request whose pre-hook never ran (no start
time recorded) makes `after_request` raise instead of completing and
returning the response: reading `request.start_time` is unguarded. -/
theorem after_request_missing_start_raises :
    (FlaskMetricsWrapper.after_request ⟨"orders"⟩ reqNoStart respOk 5
      reg0).toOption = none := rfl

/-- Claim C1 (amended): `after_request` completes without raising exactly
when a start time was recorded on the request; when the pre-hook never ran it
raises an `AttributeError` reading `request.start_time`, rather than skipping
latency recording or recording zero. -/
theorem after_request_completes_iff_pre_hook_ran (w : FlaskMetricsWrapper)
    (req : Request) (response : HttpResponse) (now : ℚ) (reg : Registry) :
    (w.after_request req response now reg).toOption.isSome
      = req.start_time.isSome := by
  cases h : req.start_time <;>
    simp [FlaskMetricsWrapper.after_request, h, Except.toOption]

/-- Claim C2: the `uri` label recorded by `after_request` is the registered
route pattern whenever the framework resolved one, and the literal request
path whenever it did not; in the unmatched case it is the raw path, hence
nonempty when the path is, and a wildcard only if the path itself is. -/
theorem after_request_uri_label (w : FlaskMetricsWrapper) (req : Request)
    (response : HttpResponse) (now : ℚ) (reg : Registry) (t0 : ℚ)
    (h : req.start_time = some t0) :
    ∃ reg' lat labels,
      w.after_request req response now reg = Except.ok (response, reg') ∧
      reg'.request_latency = (lat, labels) :: reg.request_latency ∧
      (∀ rule, req.url_rule = some rule → labels.uri = rule) ∧
      (req.url_rule = none →
        labels.uri = req.path ∧ (req.path ≠ "" → labels.uri ≠ "") ∧
        (req.path ≠ "*" → labels.uri ≠ "*")) := by
  refine ⟨_, now - t0, w.after_request_labels req response,
    after_request_eq w req response now reg t0 h, rfl, ?_, ?_⟩
  · intro rule hr
    simp [FlaskMetricsWrapper.after_request_labels, hr]
  · intro hr
    refine ⟨?_, ?_, ?_⟩ <;> simp [FlaskMetricsWrapper.after_request_labels, hr]

/-- Claim C2 witness: a request to the unmatched path `/unknown/path` is
recorded with `uri` equal to that raw path. -/
theorem after_request_uri_label_witness :
    ∃ reg' lat labels,
      FlaskMetricsWrapper.after_request ⟨"orders"⟩ reqUnmatched resp404 1 reg0
        = Except.ok (resp404, reg') ∧
      reg'.request_latency = (lat, labels) :: reg0.request_latency ∧
      (∀ rule, reqUnmatched.url_rule = some rule → labels.uri = rule) ∧
      (reqUnmatched.url_rule = none →
        labels.uri = reqUnmatched.path ∧
        (reqUnmatched.path ≠ "" → labels.uri ≠ "") ∧
        (reqUnmatched.path ≠ "*" → labels.uri ≠ "*")) :=
  after_request_uri_label ⟨"orders"⟩ reqUnmatched resp404 1 reg0 0 rfl

/-- Claim C3: a completed request (pre-hook then post-hook) records exactly
one latency observation and exactly one count increment by 1, both at the
identical label set; with a nonempty app name, method and path (and route
pattern if resolved), all four label values are nonempty strings and the
`status` value is the decimal string of the numeric status code. -/
theorem after_request_one_record_one_increment (w : FlaskMetricsWrapper)
    (req : Request) (response : HttpResponse) (now : ℚ) (reg : Registry)
    (t0 : ℚ) (h : req.start_time = some t0)
    (hservice : w.app_name ≠ "") (hmethod : req.method ≠ "")
    (hpath : req.path ≠ "")
    (hrule : ∀ rule, req.url_rule = some rule → rule ≠ "") :
    ∃ reg' lat labels,
      w.after_request req response now reg = Except.ok (response, reg') ∧
      reg'.request_latency = (lat, labels) :: reg.request_latency ∧
      reg'.request_count labels = reg.request_count labels + 1 ∧
      (∀ l, l ≠ labels → reg'.request_count l = reg.request_count l) ∧
      labels.service ≠ "" ∧ labels.method ≠ "" ∧
      labels.uri ≠ "" ∧ labels.status ≠ "" ∧
      labels.status = toString response.status_code := by
  refine ⟨_, now - t0, w.after_request_labels req response,
    after_request_eq w req response now reg t0 h, rfl, ?_, ?_, hservice,
    hmethod, ?_, nat_toString_ne_empty response.status_code, rfl⟩
  · simp
  · intro l hl
    simp [Function.update_noteq hl]
  · cases hu : req.url_rule with
    | some rule =>
      simpa [FlaskMetricsWrapper.after_request_labels, hu] using hrule rule hu
    | none =>
      simpa [FlaskMetricsWrapper.after_request_labels, hu] using hpath

/-- Claim C3 witness: a matched `GET /items/42` request on the route pattern
with app name `orders` records one observation and one increment with the
stated label shape. -/
theorem after_request_one_record_one_increment_witness :
    ∃ reg' lat labels,
      FlaskMetricsWrapper.after_request ⟨"orders"⟩ reqMatched respOk 2 reg0
        = Except.ok (respOk, reg') ∧
      reg'.request_latency = (lat, labels) :: reg0.request_latency ∧
      reg'.request_count labels = reg0.request_count labels + 1 ∧
      (∀ l, l ≠ labels → reg'.request_count l = reg0.request_count l) ∧
      labels.service ≠ "" ∧ labels.method ≠ "" ∧
      labels.uri ≠ "" ∧ labels.status ≠ "" ∧
      labels.status = toString respOk.status_code :=
  after_request_one_record_one_increment ⟨"orders"⟩ reqMatched respOk 2 reg0 0
    rfl (by decide) (by decide) (by decide)
    (by intro rule hr
        simp only [reqMatched, Option.some.injEq] at hr
        subst hr
        decide)

/-- Claim C4 counterexample: `emit` does not swallow internal failures.  With
a registry increment that fails, `emit` propagates the error to the caller
that merely tried to log: its body has no exception handling. -/
theorem emit_propagates_failure :
    MetricsLogHandler.emitWith ⟨"orders"⟩
      (fun _ _ => Except.error "registry unavailable") recWarn
      = Except.error "registry unavailable" := rfl

/-- Claim C4 (amended): `emit` completes without raising exactly when the
registry increment does; any failure of the increment propagates verbatim to
the code path that emitted the log record. -/
theorem emit_fails_iff_increment_fails (h : MetricsLogHandler)
    (add : Nat → LogLabels → Except String Unit) (record : LogRecord)
    (e : String)
    (hadd : add 1 { service := h.app_name, level := record.levelname }
      = Except.error e) :
    h.emitWith add record = Except.error e := by
  simpa [MetricsLogHandler.emitWith] using hadd

/-- Claim C4 witness: a concrete failing increment makes a concrete `emit`
call fail with the same error. -/
theorem emit_fails_iff_increment_fails_witness :
    MetricsLogHandler.emitWith ⟨"orders"⟩ (fun _ _ => Except.error "down")
      recWarn = Except.error "down" :=
  emit_fails_iff_increment_fails ⟨"orders"⟩ (fun _ _ => Except.error "down")
    recWarn "down" rfl

/-- Claim C5 counterexample: a request whose HTTP method string is the
lowercase `get` is recorded with method label `get`, which differs from the
uppercased form `GET`: the code stores `str(request.method)` verbatim and
never uppercases. -/
theorem method_label_not_uppercased :
    ((FlaskMetricsWrapper.after_request ⟨"orders"⟩ reqLower respOk 1
        reg0).toOption.map
        (fun p => p.2.request_latency.map (fun o => o.2.method)))
      = some ["get"] ∧ ("get".data.map Char.toUpper) = "GET".data ∧
      ("get" : String) ≠ "GET" := by
  refine ⟨rfl, ?_, ?_⟩ <;> decide

/-- Claim C5 (amended): the `method` label recorded by `after_request` is the
request's method string exactly as given (it is the uppercase form only when
the method string is already uppercase). -/
theorem method_label_verbatim (w : FlaskMetricsWrapper) (req : Request)
    (response : HttpResponse) (now : ℚ) (reg : Registry) (t0 : ℚ)
    (h : req.start_time = some t0) :
    ∃ reg' lat labels,
      w.after_request req response now reg = Except.ok (response, reg') ∧
      reg'.request_latency = (lat, labels) :: reg.request_latency ∧
      labels.method = req.method :=
  ⟨_, now - t0, w.after_request_labels req response,
    after_request_eq w req response now reg t0 h, rfl, rfl⟩

/-- Claim C5 witness: the lowercase-method request is recorded with its
method string unchanged. -/
theorem method_label_verbatim_witness :
    ∃ reg' lat labels,
      FlaskMetricsWrapper.after_request ⟨"orders"⟩ reqLower respOk 1 reg0
        = Except.ok (respOk, reg') ∧
      reg'.request_latency = (lat, labels) :: reg0.request_latency ∧
      labels.method = reqLower.method :=
  method_label_verbatim ⟨"orders"⟩ reqLower respOk 1 reg0 0 rfl

/-- Claim C6: the `GET /metrics` handler returns status 200, content type
`text/plain; charset=utf-8`, and a body exactly equal to the registry render
at that moment. -/
theorem metrics_endpoint_response (g : Registry → String) (reg : Registry) :
    (serve_metrics_handler g reg).1.status_code = 200 ∧
    (serve_metrics_handler g reg).1.content_type
      = "text/plain; charset=utf-8" ∧
    (serve_metrics_handler g reg).1.body = g reg :=
  ⟨rfl, rfl, rfl⟩

/-- Claim C7: the metrics endpoint is side-effect-free on instrument state:
the registry is returned unchanged, two consecutive invocations with no
intervening traffic produce identical bodies, and no counter decreases. -/
theorem metrics_endpoint_side_effect_free (g : Registry → String)
    (reg : Registry) :
    (serve_metrics_handler g reg).2 = reg ∧
    (serve_metrics_handler g (serve_metrics_handler g reg).2).1.body
      = (serve_metrics_handler g reg).1.body ∧
    (∀ l, reg.request_count l ≤ (serve_metrics_handler g reg).2.request_count l) ∧
    (∀ l, reg.logger_messages l
      ≤ (serve_metrics_handler g reg).2.logger_messages l) ∧
    (serve_metrics_handler g reg).2.request_latency = reg.request_latency :=
  ⟨rfl, rfl, fun _ => le_refl _, fun _ => le_refl _, rfl⟩

/-- Claim C8: `after_request` returns exactly the response value it was
given - same status, headers and body - and its only registry effects are the
one latency observation and the one count update; the log-message counter is
untouched. -/
theorem after_request_response_passthrough (w : FlaskMetricsWrapper)
    (req : Request) (response : HttpResponse) (now : ℚ) (reg : Registry)
    (t0 : ℚ) (h : req.start_time = some t0) :
    ∃ reg',
      w.after_request req response now reg = Except.ok (response, reg') ∧
      (∃ lat labels,
        reg'.request_latency = (lat, labels) :: reg.request_latency ∧
        reg'.request_count = Function.update reg.request_count labels
          (reg.request_count labels + 1)) ∧
      reg'.logger_messages = reg.logger_messages :=
  ⟨_, after_request_eq w req response now reg t0 h,
    ⟨now - t0, w.after_request_labels req response, rfl, rfl⟩, rfl⟩

/-- Claim C8 witness: a concrete request with a recorded start time passes
its response through unchanged. -/
theorem after_request_response_passthrough_witness :
    ∃ reg',
      FlaskMetricsWrapper.after_request ⟨"orders"⟩ reqMatched resp404 3 reg0
        = Except.ok (resp404, reg') ∧
      (∃ lat labels,
        reg'.request_latency = (lat, labels) :: reg0.request_latency ∧
        reg'.request_count = Function.update reg0.request_count labels
          (reg0.request_count labels + 1)) ∧
      reg'.logger_messages = reg0.logger_messages :=
  after_request_response_passthrough ⟨"orders"⟩ reqMatched resp404 3 reg0 0 rfl

/-- Claim C9: one call to `emit` increases the log-message counter at
(service = app name, level = the record's severity name) by exactly 1 and
leaves the counter at every other (service, level) pair unchanged. -/
theorem emit_increments_exactly_one_pair (h : MetricsLogHandler)
    (record : LogRecord) (reg : Registry) :
    (h.emit record reg).logger_messages
        { service := h.app_name, level := record.levelname }
      = reg.logger_messages
          { service := h.app_name, level := record.levelname } + 1 ∧
    ∀ l : LogLabels, l ≠ { service := h.app_name, level := record.levelname } →
      (h.emit record reg).logger_messages l = reg.logger_messages l := by
  constructor
  · simp [MetricsLogHandler.emit]
  · intro l hl
    simp [MetricsLogHandler.emit, Function.update_noteq hl]

/-- Claim C9 witness: one WARNING record for service `orders` on the empty
registry takes `logger_messages_total` at (orders, WARNING) from 0 to 1 and
leaves (orders, INFO) at 0. -/
theorem emit_increments_exactly_one_pair_witness :
    (MetricsLogHandler.emit ⟨"orders"⟩ recWarn reg0).logger_messages
        { service := "orders", level := "WARNING" }
      = reg0.logger_messages { service := "orders", level := "WARNING" } + 1 ∧
    (MetricsLogHandler.emit ⟨"orders"⟩ recWarn reg0).logger_messages
        { service := "orders", level := "INFO" }
      = reg0.logger_messages { service := "orders", level := "INFO" } :=
  ⟨(emit_increments_exactly_one_pair ⟨"orders"⟩ recWarn reg0).1,
   (emit_increments_exactly_one_pair ⟨"orders"⟩ recWarn reg0).2
     { service := "orders", level := "INFO" } (by decide)⟩

/-- Claim C10: the registry effect of `emit` depends only on the handler's
app name and the record's severity name: two records with the same
`levelname` produce identical registry states from any starting state,
whatever their message, arguments or logger name. -/
theorem emit_noninterference (h : MetricsLogHandler) (r1 r2 : LogRecord)
    (reg : Registry) (hl : r1.levelname = r2.levelname) :
    h.emit r1 reg = h.emit r2 reg := by
  simp [MetricsLogHandler.emit, hl]

/-- Claim C10 witness: two INFO records differing in logger name, message
and arguments have the same effect on the empty registry. -/
theorem emit_noninterference_witness :
    MetricsLogHandler.emit ⟨"orders"⟩ recInfoA reg0
      = MetricsLogHandler.emit ⟨"orders"⟩ recInfoB reg0 :=
  emit_noninterference ⟨"orders"⟩ recInfoA recInfoB reg0 rfl

end Pyms
